import Mathlib

/-!
Verification of the cygnet/peeplatex metadata and full-text acquisition engine.

Shallow embedding of the Python source: pure string manipulation is translated
directly; calls into external libraries (the `re` regex engine, unicode NFKC
normalization, the aiohttp network layer, the filesystem) are modelled as
explicit inputs (function parameters or data describing the response).
Python exceptions are modelled with `Except PyErr`.
-/

namespace Cygnet

/-- Python exception values that the embedded code can raise. -/
inductive PyErr
  | keyError (k : String)
  | indexError
  | typeError (msg : String)
  | valueError (msg : String)
  | nameError (n : String)
deriving DecidableEq, Repr

/-- Models `d[k]` on a dict field modelled as `Option`: raises `KeyError` when absent. -/
def getKey (v : Option α) (k : String) : Except PyErr α :=
  match v with
  | some a => .ok a
  | none => .error (.keyError k)

/-- Models `l[i]` on a Python list: raises `IndexError` when out of range. -/
def listGet (l : List α) (i : Nat) : Except PyErr α :=
  match l.get? i with
  | some a => .ok a
  | none => .error .indexError

/-- `listLeadsWith n h` is true iff `n` is a prefix of `h`. -/
def listLeadsWith : List Char → List Char → Bool
  | [], _ => true
  | _ :: _, [] => false
  | a :: as, b :: bs => a == b && listLeadsWith as bs

def pyInAux (n : List Char) : List Char → Bool
  | [] => listLeadsWith n []
  | c :: rest => listLeadsWith n (c :: rest) || pyInAux n rest

/-- Models Python `needle in hay` on strings (substring containment;
true for the empty needle). -/
def pyIn (needle hay : String) : Bool :=
  pyInAux needle.toList hay.toList

/-- Models Python `s.startswith(pre)`. -/
def pyStartsWith (s pre : String) : Bool :=
  listLeadsWith pre.toList s.toList

/-- Whitespace for Python `strip`/`rstrip` (ASCII whitespace suffices for the
inputs this code base handles). -/
def isSpaceChar (c : Char) : Bool :=
  c == ' ' || c == '\t' || c == '\n' || c == '\r'

/-- Models Python `s.strip()`. -/
def pyStrip (s : String) : String :=
  ⟨((s.toList.dropWhile isSpaceChar).reverse.dropWhile isSpaceChar).reverse⟩

/-- Models Python `s.rstrip()`. -/
def pyRStrip (s : String) : String :=
  ⟨(s.toList.reverse.dropWhile isSpaceChar).reverse⟩

/-- Replace every (non-overlapping, left-to-right) occurrence of `n` by `r`,
fuelled by the remaining length; the source never calls `replace` with an
empty pattern, and for a nonempty pattern the fuel `hay.length` never runs out. -/
def pyReplaceAux (n r : List Char) : Nat → List Char → List Char
  | _, [] => []
  | 0, l => l
  | fuel + 1, c :: rest =>
    if listLeadsWith n (c :: rest) && !n.isEmpty then
      r ++ pyReplaceAux n r fuel (List.drop (n.length - 1) rest)
    else
      c :: pyReplaceAux n r fuel rest

/-- Models Python `s.replace(pattern, repl)` (the source never passes an
empty pattern, for which Python would intersperse instead). -/
def pyReplace (s pattern repl : String) : String :=
  if pattern.isEmpty then s
  else ⟨pyReplaceAux pattern.toList repl.toList s.toList.length s.toList⟩

/-- Split on a separator, fuelled like `pyReplaceAux`; the source only splits
on nonempty separators. -/
def pySplitAux (sep : List Char) : Nat → List Char → List Char → List (List Char)
  | 0, acc, l => [acc.reverse ++ l]
  | _ + 1, acc, [] => [acc.reverse]
  | fuel + 1, acc, c :: rest =>
    if listLeadsWith sep (c :: rest) && !sep.isEmpty then
      acc.reverse :: pySplitAux sep fuel [] (List.drop (sep.length - 1) rest)
    else
      pySplitAux sep fuel (c :: acc) rest

/-- Models Python `s.split(sep)` for a nonempty separator. -/
def pySplit (s sep : String) : List String :=
  (pySplitAux sep.toList (s.toList.length + 1) [] s.toList).map String.mk

/-- Models Python `s.split(sep, maxsplit=1)`. -/
def pySplit1 (s sep : String) : List String :=
  match pySplit s sep with
  | [] => []
  | [x] => [x]
  | x :: rest => [x, String.intercalate sep rest]

def digitsToNat? : List Char → Option Nat
  | [] => none
  | l => go l 0
where
  go : List Char → Nat → Option Nat
    | [], acc => some acc
    | c :: rest, acc =>
      if c.isDigit then go rest (acc * 10 + (c.toNat - 48))
      else none

/-- Models Python `int(s)` on strings: optional surrounding whitespace,
optional sign, then decimal digits; anything else raises `ValueError`
(modelled as `none`). -/
def pyInt? (s : String) : Option Int :=
  match (pyStrip s).toList with
  | '-' :: ds => (digitsToNat? ds).map (fun n => -(n : Int))
  | '+' :: ds => (digitsToNat? ds).map Int.ofNat
  | ds => (digitsToNat? ds).map Int.ofNat

/-!
SECTION: MetadataResolver: `doi_to_article_cr` (src/peeplatex/peeparticle.py)

The Crossref HTTP exchange is modelled by an `Option CrMessage`: `none` is a
non-JSON response, on which `resp.json()` raises
`aiohttp.client_exceptions.ContentTypeError` (the one exception class the
function catches); `some d` is the decoded `d["message"]` JSON object, with
each optional JSON key an `Option` field.
-/

/-- One entry of the Crossref `author` array (`family`/`given` keys may be
absent, in which case subscripting raises `KeyError`). -/
structure CrAuthor where
  family : Option String := none
  given : Option String := none
deriving DecidableEq, Repr

/-- The `d["message"]` JSON object, restricted to the keys the function reads.
`publishedPrint`/`publishedOnline` hold the `date-parts` value of
`published-print`/`published-online` when the key is present. -/
structure CrMessage where
  author : Option (List CrAuthor) := none
  publishedPrint : Option (List (List Int)) := none
  publishedOnline : Option (List (List Int)) := none
  containerTitle : Option (List String) := none
  shortContainerTitle : Option (List String) := none
  title0 : Option (List String) := none
  volume : Option String := none
  issue : Option String := none
  page : Option String := none
deriving DecidableEq, Repr

/-- `int(d["volume"])` keeps the int on success and the raw string on
`ValueError` (ranges such as "12-13"). -/
inductive VolVal
  | int (n : Int)
  | str (s : String)
deriving DecidableEq, Repr

/-- A processed author as stored on the `Article`. -/
structure OutAuthor where
  family : String
  given : String
deriving DecidableEq, Repr

/-- The `Article` class of src/peeplatex/peeparticle.py; `__init__` defaults
every field to `None`. -/
structure Article where
  title : Option String := none
  authors : Option (List OutAuthor) := none
  journal_long : Option String := none
  journal_short : Option String := none
  year : Option Int := none
  volume : Option VolVal := none
  issue : Option VolVal := none
  pages : Option String := none
  doi : Option String := none
  time_added : Option Int := none
  time_opened : Option Int := none
deriving DecidableEq, Repr

/-- `_g.journalReplacements` of src/peeplatex/_shared.py (lines 156-170). -/
def journalReplacements : List (String × String) :=
  [("Proceedings of the National Academy of Sciences", "Proc. Acad. Natl. Sci. U. S. A."),
   ("The Journal of Chemical Physics", "J. Chem. Phys."),
   ("Journal of Magnetic Resonance", "J. Magn. Reson."),
   ("Journal of Magnetic Resonance (1969)", "J. Magn. Reson."),
   ("Progress in Nuclear Magnetic Resonance Spectroscopy", "Prog. Nucl. Magn. Reson. Spectrosc."),
   ("Magn Reson Chem", "Magn. Reson. Chem."),
   ("Chemical Physics Letters", "Chem. Phys. Lett."),
   ("Biochemistry Journal", "Biochem. J."),
   ("Journal of Magnetic Resonance, Series A", "J. Magn. Reson., Ser. A"),
   ("Journal of Magnetic Resonance, Series B", "J. Magn. Reson., Ser. B"),
   ("J Biomol NMR", "J. Biomol. NMR"),
   ("Annual Reports on NMR Spectroscopy", "Annu. Rep. NMR Spectrosc."),
   ("Angewandte Chemie International Edition", "Angew. Chem. Int. Ed.")]

/-- `_g.greek2Unicode` of src/peeplatex/_shared.py (lines 140-153). -/
def greek2Unicode : List (String × String) :=
  [("Alpha", "Α"), ("Beta", "Β"), ("Gamma", "Γ"), ("Delta", "Δ"),
   ("Epsilon", "Ε"), ("Zeta", "Ζ"), ("Eta", "Η"), ("Theta", "Θ"),
   ("Iota", "Ι"), ("Kappa", "Κ"), ("Lamda", "Λ"), ("Mu", "Μ"),
   ("Nu", "Ν"), ("Xi", "Ξ"), ("Omicron", "Ο"), ("Pi", "Π"),
   ("Rho", "Ρ"), ("Sigma", "Σ"), ("Tau", "Τ"), ("Upsilon", "Υ"),
   ("Phi", "Φ"), ("Chi", "Χ"), ("Psi", "Ψ"), ("Omega", "Ω"),
   ("alpha", "α"), ("beta", "β"), ("gamma", "γ"), ("delta", "δ"),
   ("epsilon", "ε"), ("zeta", "ζ"), ("eta", "η"), ("theta", "θ"),
   ("iota", "ι"), ("kappa", "κ"), ("lamda", "λ"), ("mu", "μ"),
   ("nu", "ν"), ("xi", "ξ"), ("omicron", "ο"), ("pi", "π"),
   ("rho", "ρ"), ("sigma", "σ"), ("tau", "τ"), ("upsilon", "υ"),
   ("phi", "φ"), ("chi", "χ"), ("psi", "ψ"), ("omega", "ω")]

/-- `article.year = int(d["published-print"]["date-parts"][0][0]) if
"published-print" in d else int(d["published-online"]["date-parts"][0][0])`:
when both keys are absent the second subscript raises `KeyError`. -/
def getYear (d : CrMessage) : Except PyErr Int :=
  match d.publishedPrint with
  | some dp => do
    let r ← listGet dp 0
    listGet r 0
  | none =>
    match d.publishedOnline with
    | some dp => do
      let r ← listGet dp 0
      listGet r 0
    | none => .error (.keyError "published-online")

/-- The `'J.R.J.' -> 'J. R. J.'` given-name hack:
`auth["given"].replace(". ", ".").replace(".", ". ").rstrip()`, then NFKC. -/
def normalizeGiven (nfkc : String → String) (g : String) : String :=
  nfkc (pyRStrip (pyReplace (pyReplace g ". " ".") "." ". "))

/-- `if f".{i}." in title: title = title.replace(f".{i}.", glyph)` folded over
`_g.greek2Unicode`. -/
def replaceGreek (t : String) : String :=
  greek2Unicode.foldl
    (fun acc kv =>
      if pyIn ("." ++ kv.1 ++ ".") acc then pyReplace acc ("." ++ kv.1 ++ ".") kv.2
      else acc) t

/-- `try: int(v) except KeyError: "" except ValueError: v` for volume/issue. -/
def volOrIssue (v : Option String) : VolVal :=
  match v with
  | none => .str ""
  | some s =>
    match pyInt? s with
    | some n => .int n
    | none => .str s

/-- The author list comprehension of lines 332-334: each author dict is
subscripted for `family` and `given` and the names are normalized. -/
def processAuthors (nfkc : String → String) (auths : List CrAuthor) :
    Except PyErr (List OutAuthor) :=
  auths.mapM (fun a => do
    let fam ← getKey a.family "family"
    let giv ← getKey a.given "given"
    pure ({ family := nfkc fam, given := normalizeGiven nfkc giv } : OutAuthor))

/-- `doi_to_article_cr` of src/peeplatex/peeparticle.py (lines 287-381).
`nfkc` models `unicodedata.normalize("NFKC", ·)`. A `none` response models a
non-JSON registry reply (`ContentTypeError`, caught: the blank `Article` with
only `doi` set is returned). Exceptions raised in the `else:` block of the
source's try-statement are re-raised after `finally` because the `return` is
placed after the whole statement; they surface here as `Except.error`. -/
def doi_to_article_cr (nfkc : String → String) (doi : String)
    (resp : Option CrMessage) : Except PyErr Article :=
  match resp with
  | none => .ok { doi := some doi }
  | some d => do
    let auths ← getKey d.author "author"
    let authors ← processAuthors nfkc auths
    let year ← getYear d
    let ct ← getKey d.containerTitle "container-title"
    let jl ← listGet ct 0
    let js0 :=
      match d.shortContainerTitle with
      | some l => (l.get? 0).getD jl
      | none => jl
    let js := (journalReplacements.lookup js0).getD js0
    let ts ← getKey d.title0 "title"
    let t0 ← listGet ts 0
    let title := replaceGreek t0
    let vol := volOrIssue d.volume
    let iss := volOrIssue d.issue
    let pg := d.page.getD ""
    pure { title := some title, authors := some authors, journal_long := some jl,
           journal_short := some js, year := some year, volume := some vol,
           issue := some iss, pages := some pg, doi := some doi }

/-!
SECTION: PublisherDetector: `DOIToFullPDFURL` (src/peeplatex/refMgmt.py, lines 273-368)

The HTTP exchange with `https://doi.org/{doi}` is modelled by an
`Option HttpResponse`: `none` stands for the transport exceptions the source
tries to catch (`ContentTypeError`, `InvalidURL`, `ClientConnectorError`);
`some resp` carries status, the three inspected header families, and the body
as a list of decoded lines. The `re` regex engine is a parameter: `re p line`
models `publisherRegex[p][0].search(line)`, returning `match.group(1)`. -/

/-- The publishers of `publisherFmtStrings`. -/
inductive Publisher
  | acs | wiley | elsevier | nature | science | springer | tandf | annrev | rsc
deriving DecidableEq, Repr

/-- The five publishers appearing in the body-scan table `publisherRegex`. -/
inductive BodyPub
  | wiley | elsevier | tandf | annrev | rsc
deriving DecidableEq, Repr

def BodyPub.toPublisher : BodyPub → Publisher
  | .wiley => .wiley
  | .elsevier => .elsevier
  | .tandf => .tandf
  | .annrev => .annrev
  | .rsc => .rsc

/-- `publisherRegex`, in dict insertion order: each entry is the regex (named
by its publisher; the pattern itself lives in the regex-engine parameter) and
the string the matched group is checked for. -/
def publisherRegex : List (BodyPub × String) :=
  [(.wiley, "John Wiley"), (.elsevier, ""), (.tandf, "Taylor"),
   (.annrev, "Annual Reviews"), (.rsc, "")]

/-- `re p line` models `search` of the table regex for `p` against `line`,
giving `group(1)` on a match. -/
abbrev RegexEngine := BodyPub → String → Option String

/-- `publisherFmtStrings[p].format(identifier)`. -/
def publisherFmtStrings (p : Publisher) (identifier : String) : String :=
  match p with
  | .acs => "https://pubs.acs.org/doi/pdf/" ++ identifier
  | .wiley => "https://onlinelibrary.wiley.com/doi/pdfdirect/" ++ identifier
  | .elsevier => "https://www.sciencedirect.com/science/article/pii/" ++ identifier ++ "/pdfft"
  | .nature => "https://www.nature.com/articles/" ++ identifier ++ ".pdf"
  | .science => "https://science.sciencemag.org/content/sci/" ++ identifier ++ ".full.pdf"
  | .springer => "https://link.springer.com/content/pdf/" ++ identifier ++ ".pdf"
  | .tandf => "https://www.tandfonline.com/doi/pdf/" ++ identifier
  | .annrev => "https://www.annualreviews.org/doi/pdf/" ++ identifier
  | .rsc => "https://pubs.rsc.org/en/content/articlepdf/" ++ identifier

/-- The response to `session.get("https://doi.org/{doi}")`. -/
structure HttpResponse where
  status : Nat
  reason : String := ""
  setCookie : List String := []
  xForwardedHost : List String := []
  link : List String := []
  bodyLines : List String := []

/-- The second component of the returned pair: a URL string on success, or
`_ret.FAILURE` (what `_error(...)` returns after printing its message). -/
inductive UrlRet
  | url (s : String)
  | failure
deriving DecidableEq, Repr

/-- One body-table entry applied to one line: the regex must match and the
matched group must contain the entry's keyword
(`if match and regexKeyword[1] in match.group(1)`). -/
def entryMatch (re : RegexEngine) (ent : BodyPub × String) (line : String) :
    Option (BodyPub × String) :=
  match re ent.1 line with
  | some g => if pyIn ent.2 g then some (ent.1, g) else none
  | none => none

/-- The inner `for pname, regexKeyword in publisherRegex.items()` loop on one
line: the first entry that matches (with its keyword contained) wins. -/
def lineMatch (re : RegexEngine) (line : String) : Option (BodyPub × String) :=
  publisherRegex.findSome? (fun ent => entryMatch re ent line)

/-- Identifier selection after a body match: wiley/tandf/annrev use the DOI,
elsevier and rsc use the captured group. -/
def bodyIdentifier (p : BodyPub) (doi g : String) : String :=
  match p with
  | .wiley => doi
  | .tandf => doi
  | .annrev => doi
  | .elsevier => g
  | .rsc => g

/-- `async for line in resp.content`, counting consumed lines; a raise of
`_PublisherFound` unwinds to the handler that returns the formatted URL, and
an exhausted loop falls through to the final `else: return (doi, _error(...))`. -/
def scanBody (re : RegexEngine) (doi : String) :
    List String → Nat → Except PyErr (String × UrlRet) × Nat
  | [], n => (.ok (doi, .failure), n)
  | line :: rest, n =>
    match lineMatch re line with
    | some pg =>
      (.ok (doi, .url (publisherFmtStrings pg.1.toPublisher (bodyIdentifier pg.1 doi pg.2))),
       n + 1)
    | none => scanBody re doi rest (n + 1)

/-- Nature shortcut identifier: `doi.split('/', maxsplit=1)[1]`. -/
def natureIdent (doi : String) : Except PyErr String :=
  listGet (pySplit1 doi "/") 1

/-- Science shortcut identifier:
`resp.headers["Link"].split(">")[0].split("/content/")[1]` (`headers["Link"]`
is the first Link header, raising `KeyError` when there is none). -/
def scienceIdent (resp : HttpResponse) : Except PyErr String := do
  let h ← getKey resp.link.head? "Link"
  let part0 ← listGet (pySplit h ">") 0
  listGet (pySplit part0 "/content/") 1

/-- `DOIToFullPDFURL` of src/peeplatex/refMgmt.py (lines 273-368). The second
component of the result counts how many body lines were consumed. Two branches
of the source reference undefined names and therefore raise `NameError`: the
non-200 branch formats `psrc` (line 316) and the transport-exception handler
formats `url_doi` (line 364, a typo for `doi_url`). -/
def DOIToFullPDFURL (re : RegexEngine) (doi : String) (fetch : Option HttpResponse) :
    Except PyErr (String × UrlRet) × Nat :=
  match fetch with
  | none => (.error (.nameError "url_doi"), 0)
  | some resp =>
    if resp.status ≠ 200 then (.error (.nameError "psrc"), 0)
    else if resp.setCookie.any (fun h => pyIn "pubs.acs.org" h) then
      (.ok (doi, .url (publisherFmtStrings .acs doi)), 0)
    else if resp.xForwardedHost.any (fun h => pyIn "www.nature.com" h) then
      (match natureIdent doi with
       | .ok ident => (.ok (doi, .url (publisherFmtStrings .nature ident)), 0)
       | .error e => (.error e, 0))
    else if resp.link.any (fun h => pyIn "science.sciencemag.org" h) then
      (match scienceIdent resp with
       | .ok ident => (.ok (doi, .url (publisherFmtStrings .science ident)), 0)
       | .error e => (.error e, 0))
    else if resp.setCookie.any (fun h => pyIn ".springer.com" h) then
      (.ok (doi, .url (publisherFmtStrings .springer doi)), 0)
    else if resp.setCookie.any (fun h => pyIn ".tandfonline.com" h) then
      (.ok (doi, .url (publisherFmtStrings .tandf doi)), 0)
    else scanBody re doi resp.bodyLines 0

/-- Stated from the claim's wording: a table entry's regex matches the line
and the captured group contains the entry's required substring. -/
def entrySatisfied (re : RegexEngine) (ent : BodyPub × String) (line : String) : Bool :=
  match re ent.1 line with
  | some g => pyIn ent.2 g
  | none => false

/-- Stated from the claim's wording: some entry of the table fires on this line. -/
def lineHits (re : RegexEngine) (line : String) : Bool :=
  publisherRegex.any (fun ent => entrySatisfied re ent line)

/-- No header shortcut applies (all five cheap signals absent). -/
def noHeaderShortcut (resp : HttpResponse) : Bool :=
  !(resp.setCookie.any (fun h => pyIn "pubs.acs.org" h)) &&
  !(resp.xForwardedHost.any (fun h => pyIn "www.nature.com" h)) &&
  !(resp.link.any (fun h => pyIn "science.sciencemag.org" h)) &&
  !(resp.setCookie.any (fun h => pyIn ".springer.com" h)) &&
  !(resp.setCookie.any (fun h => pyIn ".tandfonline.com" h))

/-!
SECTION: StreamingFetcher: `savePDF` (src/peeplatex/refMgmt.py, lines 60-167)

The environment bundles the external world: `net` maps a URL to its response
(`none` = the transport exceptions caught at line 162), `redirectSearch`
models the `window.location` redirect regex against one body line (returning
`group(1)`), `isFile` models `Path.is_file()`, `destParentExists` models
`pdest.parent.exists()` and `cpOk` whether the `cp` subprocess succeeds. The
unbounded Python recursion on the Elsevier redirect is fuelled. -/

/-- The response to `_g.ahSession.get(psrc)` inside `savePDF`. -/
structure UrlResponse where
  status : Nat
  reason : String := ""
  contentType : String := ""
  contentLength : Option String := none
  textLines : List String := []
  chunks : List (List Nat) := []

/-- `savePDF` returns `_ret.SUCCESS` or `_ret.FAILURE` (via `_error`);
`fuelOut` marks exhaustion of the recursion fuel (the source recurses
without a depth bound). -/
inductive SaveRet
  | success
  | failure
  | fuelOut
deriving DecidableEq, Repr

/-- The observable outcome of one `savePDF` call: its return value plus the
side effects performed (directory creation, network requests issued, whether
`cp` ran, and the chunks streamed into the destination file — `none` when the
destination file was never opened). -/
structure SaveOut where
  ret : SaveRet
  mkdirCalled : Bool := false
  netRequested : List String := []
  cpCalled : Bool := false
  written : Option (List (List Nat)) := none
deriving DecidableEq, Repr

structure SaveEnv where
  net : String → Option UrlResponse
  redirectSearch : String → Option String
  isFile : String → Bool
  destParentExists : Bool
  cpOk : Bool

/-- `_g.pathEscapes` of src/peeplatex/_shared.py (lines 179-182): a dict from
escaped character sequences to their literal characters. -/
def pathEscapes : List (String × String) :=
  [("\\ ", " "), ("\\,", ","), ("\\" ++ String.singleton (Char.ofNat 39), String.singleton (Char.ofNat 39)),
   ("\\\"", "\"")]

/-- The loop `for escapedChar, char in _g.pathEscapes:` iterates over the
KEYS of the dict (`.items()` is missing), so each two-character key string is
unpacked into its two characters: `escapedChar` is the backslash and `char`
the escaped character. The length-2 unpacking always succeeds for this table
(every key has exactly two characters). -/
def applyPathEscapes (psrc : String) : String :=
  pathEscapes.foldl
    (fun s kv =>
      match kv.1.toList with
      | [c1, c2] => pyReplace s (String.singleton c1) (String.singleton c2)
      | _ => s) psrc

/-- Lines 85-88: `psrc = str(path).replace("\\ ", " ").strip()` followed by
the escape loop. -/
def processSourcePath (path : String) : String :=
  applyPathEscapes (pyStrip (pyReplace path "\\ " " "))

/-- The streaming tail of the url branch (lines 129-159): reject a
content-type without "application/pdf", otherwise open the destination and
copy chunks until the first empty read. -/
def streamStep (resp : UrlResponse) (mkdirC : Bool) (psrc : String) : SaveOut :=
  if !(pyIn "application/pdf" resp.contentType) then
    { ret := .failure, mkdirCalled := mkdirC, netRequested := [psrc] }
  else
    { ret := .success, mkdirCalled := mkdirC, netRequested := [psrc],
      written := some (resp.chunks.takeWhile (fun c => !c.isEmpty)) }

/-- `savePDF` of src/peeplatex/refMgmt.py (lines 60-167). -/
def savePDF (env : SaveEnv) : Nat → String → String → String → SaveOut
  | 0, _, _, _ => { ret := .fuelOut }
  | fuel + 1, path, doi, fmt =>
    if !(pyIn "/" path) then { ret := .failure }
    else
      let mkdirC := !env.destParentExists
      if pyStartsWith path "/" then
        let psrc := processSourcePath path
        if !(env.isFile psrc) then { ret := .failure, mkdirCalled := mkdirC }
        else if env.cpOk then
          { ret := .success, mkdirCalled := mkdirC, cpCalled := true }
        else
          { ret := .failure, mkdirCalled := mkdirC, cpCalled := true }
      else
        let psrc := pyStrip path
        match env.net psrc with
        | none => { ret := .failure, mkdirCalled := mkdirC, netRequested := [psrc] }
        | some resp =>
          if resp.status ≠ 200 then
            { ret := .failure, mkdirCalled := mkdirC, netRequested := [psrc] }
          else if pyIn "sciencedirect" psrc && (resp.contentType == "text/html") then
            match resp.textLines.findSome? env.redirectSearch with
            | some newurl =>
              let inner := savePDF env fuel newurl doi fmt
              { ret := inner.ret,
                mkdirCalled := mkdirC || inner.mkdirCalled,
                netRequested := psrc :: inner.netRequested,
                cpCalled := inner.cpCalled,
                written := inner.written }
            | none => streamStep resp mkdirC psrc
          else if pyIn "wiley" psrc && (resp.contentType == "text/html") then
            { ret := .failure, mkdirCalled := mkdirC, netRequested := [psrc] }
          else streamStep resp mkdirC psrc

/-!
SECTION: Reconciler: `diffArticles` (src/refMgmt.py, lines 252-304; the
src/peeplatex/refMgmt.py copy at lines 170-222 is the same logic except that
its author-fixing line calls `Article.format_authors` without the mandatory
`style` argument)

Articles are the dictionaries the source manipulates: value types are the ones
occurring in article dicts (strings, ints, author lists, `None`). -/

/-- One author dict (`family`/`given` keys may be absent). -/
structure DAuthor where
  family : Option String := none
  given : Option String := none
deriving DecidableEq, Repr

/-- A Python value stored in an article dict. -/
inductive Value
  | vstr (s : String)
  | vint (n : Int)
  | vauthors (l : List DAuthor)
  | vnone
deriving DecidableEq, Repr

/-- An article dictionary: association list with (by construction) unique keys. -/
abbrev PyDict := List (String × Value)

def dictGet? (d : PyDict) (k : String) : Option Value :=
  (d.find? (fun kv => kv.1 == k)).map (fun kv => kv.2)

def dictSet (d : PyDict) (k : String) (v : Value) : PyDict :=
  d.map (fun kv => if kv.1 == k then (kv.1, v) else kv)

def dictKeys (d : PyDict) : List String :=
  d.map (fun kv => kv.1)

/-- Python `==` on dicts: same key set and equal value at every key (for
unique-keyed dicts this is length equality plus pointwise agreement). -/
def dictEqB (d1 d2 : PyDict) : Bool :=
  (d1.length == d2.length) && d1.all (fun kv => dictGet? d2 kv.1 == some kv.2)

/-- `fmtAuthor(author)` of src/fmt.py with the default `style=None`:
empty author dict gives `""`; a missing given name returns `author["family"]`;
otherwise `given + " " + family`. Missing `family` raises `KeyError`. -/
def fmtAuthor (a : DAuthor) : Except PyErr String :=
  if a.family = none ∧ a.given = none then .ok ""
  else
    match a.given with
    | none => getKey a.family "family"
    | some g => do
      let f ← getKey a.family "family"
      .ok (g ++ " " ++ f)

/-- `", ".join(fmtAuthor(auth) for auth in authors)`. -/
def joinAuthors (l : List DAuthor) : Except PyErr String := do
  let ss ← l.mapM fmtAuthor
  .ok (String.intercalate ", " ss)

/-- `if "authors" in ao: ao["authors"] = ", ".join(fmtAuthor(auth) for auth
in ao["authors"])`. Iterating a `None` value raises `TypeError`, as does
iterating an int; iterating a nonempty string feeds single-character strings
into `fmtAuthor`, whose subscripting raises `TypeError`. -/
def fixAuthorsKey (d : PyDict) : Except PyErr PyDict :=
  match dictGet? d "authors" with
  | none => .ok d
  | some (.vauthors l) => do
    let s ← joinAuthors l
    .ok (dictSet d "authors" (.vstr s))
  | some .vnone => .error (.typeError "NoneType object is not iterable")
  | some (.vstr s) =>
    if s.isEmpty then .ok (dictSet d "authors" (.vstr ""))
    else .error (.typeError "string indices must be integers")
  | some (.vint _) => .error (.typeError "int object is not iterable")

/-- Insertion sort, modelling Python `sorted` on strings. -/
def insertSorted (s : String) : List String → List String
  | [] => [s]
  | x :: xs => if (compare s x).isLE then s :: x :: xs else x :: insertSorted s xs

def sortStrings : List String → List String
  | [] => []
  | x :: xs => insertSorted x (sortStrings xs)

/-- `sorted((set(ao) | set(an)) - {"timeAdded", "timeOpened"})`. -/
def allKeysOf (ao an : PyDict) : List String :=
  sortStrings
    (((dictKeys ao) ++ (dictKeys an).filter (fun k => !(dictKeys ao).contains k)).filter
      (fun k => !(k == "timeAdded" || k == "timeOpened")))

/-- The per-key comparison of the printing loop: a key present in both dicts
counts when the values differ; a key present on one side only always counts. -/
def entryDiffers (ao an : PyDict) (k : String) : Bool :=
  match dictGet? ao k, dictGet? an k with
  | some v1, some v2 => v1 != v2
  | some _, none => true
  | none, some _ => true
  | none, none => false

/-- `diffArticles` of src/refMgmt.py (lines 252-304): equal dicts return 0 at
once; otherwise the author values are stringified, the keys other than
`timeAdded`/`timeOpened` are collected and sorted (`max` over an empty key
list would raise `ValueError`), and the differing keys are counted. The
coloured printing is not modelled; it does not affect the count. -/
def diffArticles (aold anew : PyDict) : Except PyErr Nat :=
  if dictEqB aold anew then .ok 0
  else do
    let ao ← fixAuthorsKey aold
    let an ← fixAuthorsKey anew
    let allKeys := allKeysOf ao an
    if allKeys.isEmpty then .error (.valueError "max() arg is an empty sequence")
    else .ok (allKeys.countP (fun k => entryDiffers ao an k))

/-- The article `Record` of the data model: the fixed fields of one
bibliographic entry, as stored in `_g.articleList` (the dict layout consumed
by `diffArticles`). -/
structure Record where
  doi : Value := .vnone
  title : Value := .vnone
  authors : Value := .vnone
  year : Value := .vnone
  journalLong : Value := .vnone
  journalShort : Value := .vnone
  volume : Value := .vnone
  issue : Value := .vnone
  pages : Value := .vnone
  timeAdded : Value := .vnone
  timeOpened : Value := .vnone
deriving DecidableEq, Repr

def Record.toDict (r : Record) : PyDict :=
  [("doi", r.doi), ("title", r.title), ("authors", r.authors), ("year", r.year),
   ("journalLong", r.journalLong), ("journalShort", r.journalShort),
   ("volume", r.volume), ("issue", r.issue), ("pages", r.pages),
   ("timeAdded", r.timeAdded), ("timeOpened", r.timeOpened)]

/-!
SECTION: Helper lemmas
-/

theorem except_bind_ok (a : α) (f : α → Except ε β) :
    (Except.ok a >>= f) = f a := rfl

theorem except_bind_error (e : ε) (f : α → Except ε β) :
    ((Except.error e : Except ε α) >>= f) = Except.error e := rfl

theorem entrySatisfied_eq_isSome (re : RegexEngine) (ent : BodyPub × String)
    (line : String) :
    entrySatisfied re ent line = (entryMatch re ent line).isSome := by
  unfold entrySatisfied entryMatch
  cases re ent.1 line with
  | none => rfl
  | some g => cases h : pyIn ent.2 g <;> simp [h]

theorem any_satisfied_eq_findSome? (re : RegexEngine) (line : String) :
    ∀ tbl : List (BodyPub × String),
      tbl.any (fun ent => entrySatisfied re ent line) =
        (tbl.findSome? (fun ent => entryMatch re ent line)).isSome := by
  intro tbl
  induction tbl with
  | nil => rfl
  | cons e t ih =>
    rw [List.any_cons, List.findSome?_cons, entrySatisfied_eq_isSome]
    cases h : entryMatch re e line <;> simp [h, ih]

theorem lineHits_eq_isSome (re : RegexEngine) (line : String) :
    lineHits re line = (lineMatch re line).isSome :=
  any_satisfied_eq_findSome? re line publisherRegex

/-- Characterization of the body scan: if no line fires, the whole stream is
consumed and the miss result is returned normally; otherwise the first firing
line's first firing entry determines the URL. -/
theorem scanBody_spec (re : RegexEngine) (doi : String) :
    ∀ (lines : List String) (n : Nat),
      (lines.find? (lineHits re) = none →
        scanBody re doi lines n = (.ok (doi, .failure), n + lines.length)) ∧
      (∀ line, lines.find? (lineHits re) = some line →
        ∃ pg, lineMatch re line = some pg ∧
          (scanBody re doi lines n).1 =
            .ok (doi, .url (publisherFmtStrings pg.1.toPublisher
              (bodyIdentifier pg.1 doi pg.2)))) := by
  intro lines
  induction lines with
  | nil =>
    intro n
    refine ⟨fun _ => by simp [scanBody], fun line h => by simp at h⟩
  | cons l rest ih =>
    intro n
    constructor
    · intro hnone
      cases hl : lineHits re l with
      | true => rw [List.find?_cons_of_pos _ hl] at hnone; exact absurd hnone (by simp)
      | false =>
        rw [List.find?_cons_of_neg _ (by simp [hl])] at hnone
        have hlm : lineMatch re l = none := by
          have h := lineHits_eq_isSome re l
          rw [hl] at h
          cases h2 : lineMatch re l with
          | none => rfl
          | some pg => rw [h2] at h; simp at h
        have hrec := (ih (n + 1)).1 hnone
        have harith : n + 1 + rest.length = n + (rest.length + 1) := by omega
        simp only [scanBody, hlm, hrec, List.length_cons, harith]
    · intro line hfind
      cases hl : lineHits re l with
      | true =>
        rw [List.find?_cons_of_pos _ hl] at hfind
        have hline : l = line := by injection hfind
        subst hline
        have h := lineHits_eq_isSome re l
        rw [hl] at h
        cases h2 : lineMatch re l with
        | none => rw [h2] at h; simp at h
        | some pg =>
          refine ⟨pg, rfl, ?_⟩
          simp [scanBody, h2]
      | false =>
        rw [List.find?_cons_of_neg _ (by simp [hl])] at hfind
        have hlm : lineMatch re l = none := by
          have h := lineHits_eq_isSome re l
          rw [hl] at h
          cases h2 : lineMatch re l with
          | none => rfl
          | some pg => rw [h2] at h; simp at h
        obtain ⟨pg, hpg, hres⟩ := (ih (n + 1)).2 line hfind
        exact ⟨pg, hpg, by simp only [scanBody, hlm]; exact hres⟩

theorem scanBody_tagged (re : RegexEngine) (doi : String) :
    ∀ (lines : List String) (n : Nat) (p : String × UrlRet),
      (scanBody re doi lines n).1 = .ok p → p.1 = doi := by
  intro lines
  induction lines with
  | nil =>
    intro n p h
    simp [scanBody] at h
    rw [← h]
  | cons l rest ih =>
    intro n p h
    cases hm : lineMatch re l with
    | some pg =>
      simp only [scanBody, hm] at h
      simp at h
      rw [← h]
    | none =>
      simp only [scanBody, hm] at h
      exact ih _ _ h

/-!
SECTION: Claim theorems: PublisherDetector
-/

/-- C2: when no header shortcut matches, `DOIToFullPDFURL` scans the body line
by line; the first line on which some table entry's regex matches with the
required substring contained in the captured group determines the returned
URL (first-match-wins), and an exhausted body yields the "not found" result
`(doi, _ret.FAILURE)` as a normal return — not an exception — after consuming
every line exactly once. -/
theorem detect_body_scan_first_match (re : RegexEngine) (doi : String)
    (resp : HttpResponse) (h200 : resp.status = 200)
    (hns : noHeaderShortcut resp = true) :
    (resp.bodyLines.find? (lineHits re) = none →
      DOIToFullPDFURL re doi (some resp) =
        (.ok (doi, .failure), resp.bodyLines.length)) ∧
    (∀ line, resp.bodyLines.find? (lineHits re) = some line →
      ∃ pg, lineMatch re line = some pg ∧
        (DOIToFullPDFURL re doi (some resp)).1 =
          .ok (doi, .url (publisherFmtStrings pg.1.toPublisher
            (bodyIdentifier pg.1 doi pg.2)))) := by
  simp only [noHeaderShortcut, Bool.and_eq_true, Bool.not_eq_true'] at hns
  obtain ⟨⟨⟨⟨h1, h2⟩, h3⟩, h4⟩, h5⟩ := hns
  have hD : DOIToFullPDFURL re doi (some resp) = scanBody re doi resp.bodyLines 0 := by
    simp [DOIToFullPDFURL, h200, h1, h2, h3, h4, h5]
  constructor
  · intro hnone
    rw [hD, (scanBody_spec re doi resp.bodyLines 0).1 hnone, Nat.zero_add]
  · intro line hfind
    obtain ⟨pg, hpg, hres⟩ := (scanBody_spec re doi resp.bodyLines 0).2 line hfind
    exact ⟨pg, hpg, by rw [hD]; exact hres⟩

def respNoMatch : HttpResponse :=
  { status := 200, bodyLines := ["<html>", "<body></body>", "</html>"] }

theorem detect_body_scan_first_match_witness :
    DOIToFullPDFURL (fun _ _ => none) "10.1039/c9cc06223h" (some respNoMatch) =
      (.ok ("10.1039/c9cc06223h", .failure), 3) :=
  (detect_body_scan_first_match (fun _ _ => none) "10.1039/c9cc06223h"
    respNoMatch rfl rfl).1 rfl

/-- C3: a Set-Cookie header containing "pubs.acs.org" makes
`DOIToFullPDFURL` return the ACS match — the ACS PDF URL built from the DOI
itself — with zero body lines consumed (the body stream is never read). -/
theorem detect_acs_header_shortcut (re : RegexEngine) (doi : String)
    (resp : HttpResponse) (h200 : resp.status = 200)
    (hc : resp.setCookie.any (fun h => pyIn "pubs.acs.org" h) = true) :
    DOIToFullPDFURL re doi (some resp) =
      (.ok (doi, .url ("https://pubs.acs.org/doi/pdf/" ++ doi)), 0) := by
  simp [DOIToFullPDFURL, h200, hc, publisherFmtStrings]

def respAcs : HttpResponse :=
  { status := 200,
    setCookie := ["MACHINE_LAST_SEEN=2020; Domain=pubs.acs.org; Path=/"],
    bodyLines := ["<html>", "</html>"] }

theorem detect_acs_header_shortcut_witness :
    DOIToFullPDFURL (fun _ _ => none) "10.1021/jacs.0c01924" (some respAcs) =
      (.ok ("10.1021/jacs.0c01924",
        .url "https://pubs.acs.org/doi/pdf/10.1021/jacs.0c01924"), 0) :=
  detect_acs_header_shortcut (fun _ _ => none) "10.1021/jacs.0c01924" respAcs rfl rfl

/-- C4: on a transport error (the caught aiohttp exception classes), the
`except` handler itself raises `NameError` — its message formats `url_doi`,
an undefined name (the variable is `doi_url`) — so no "not found" result is
returned and the exception escapes to the caller. -/
theorem detect_transport_error_name_error :
    DOIToFullPDFURL (fun _ _ => none) "10.1039/c9cc06223h" none =
      (.error (.nameError "url_doi"), 0) := rfl

/-- C9: every pair actually returned by `DOIToFullPDFURL` is tagged with the
DOI it was invoked with (success and detection miss alike); on a transport
failure no pair is returned at all — the handler raises `NameError` (see the
C4 theorem). -/
theorem detect_result_tagged_with_doi (re : RegexEngine) (doi : String)
    (fetch : Option HttpResponse) (p : String × UrlRet)
    (h : (DOIToFullPDFURL re doi fetch).1 = .ok p) : p.1 = doi := by
  cases fetch with
  | none => simp [DOIToFullPDFURL] at h
  | some resp =>
    by_cases h200 : resp.status = 200
    · simp only [DOIToFullPDFURL, h200] at h
      by_cases c1 : resp.setCookie.any (fun hd => pyIn "pubs.acs.org" hd)
      · simp [c1] at h; rw [← h]
      · by_cases c2 : resp.xForwardedHost.any (fun hd => pyIn "www.nature.com" hd)
        · simp only [c1, c2] at h
          simp only [Bool.false_eq_true, if_false, if_true] at h
          cases hn : natureIdent doi with
          | ok ident => rw [hn] at h; simp at h; rw [← h]
          | error e => rw [hn] at h; simp at h
        · by_cases c3 : resp.link.any (fun hd => pyIn "science.sciencemag.org" hd)
          · simp only [c1, c2, c3] at h
            simp only [Bool.false_eq_true, if_false, if_true] at h
            cases hs : scienceIdent resp with
            | ok ident => rw [hs] at h; simp at h; rw [← h]
            | error e => rw [hs] at h; simp at h
          · by_cases c4 : resp.setCookie.any (fun hd => pyIn ".springer.com" hd)
            · simp [c1, c2, c3, c4] at h; rw [← h]
            · by_cases c5 : resp.setCookie.any (fun hd => pyIn ".tandfonline.com" hd)
              · simp [c1, c2, c3, c4, c5] at h; rw [← h]
              · simp only [c1, c2, c3, c4, c5] at h
                simp only [Bool.false_eq_true, if_false] at h
                exact scanBody_tagged re doi resp.bodyLines 0 p h
    · simp [DOIToFullPDFURL, h200] at h

theorem detect_result_tagged_with_doi_witness :
    (("10.1021/jacs.0c01924", UrlRet.failure) : String × UrlRet).1 =
      "10.1021/jacs.0c01924" :=
  detect_result_tagged_with_doi (fun _ _ => none) "10.1021/jacs.0c01924"
    (some { status := 200 }) ("10.1021/jacs.0c01924", UrlRet.failure) rfl

/-!
SECTION: Claim theorems: MetadataResolver
-/

/-- A well-formed registry message that lacks both `published-print` and
`published-online`. -/
def noDatesMsg : CrMessage :=
  { author := some [{ family := some "Yong", given := some "Jonathan R. J." }],
    containerTitle := some ["Nature Chemistry"],
    shortContainerTitle := some ["Nat. Chem."],
    title0 := some ["An example title"] }

/-- C1 counterexample: on a well-formed JSON response lacking both
publication dates, `doi_to_article_cr` does not return the failure sentinel:
the year expression raises `KeyError("published-online")`, which is re-raised
after the `finally` block and escapes to the caller. -/
theorem resolve_missing_dates_raises :
    doi_to_article_cr id "10.1038/s41557-020-0455-y" (some noDatesMsg) =
      .error (.keyError "published-online") := rfl

/-- C1 (amended): on a non-JSON response (malformed/unknown DOI) the caught
`ContentTypeError` leads to the sentinel `Record` — `title` is `None` and
`doi` is the input DOI — with no exception; but on any well-formed JSON
response lacking both print and online publication dates an exception
propagates instead of the sentinel. -/
theorem resolve_sentinel_amended (nfkc : String → String) (doi : String)
    (d : CrMessage) (hp : d.publishedPrint = none)
    (ho : d.publishedOnline = none) :
    (doi_to_article_cr nfkc doi none = .ok { doi := some doi } ∧
      ({ doi := some doi } : Article).title = none) ∧
    ∃ e, doi_to_article_cr nfkc doi (some d) = .error e := by
  refine ⟨⟨rfl, rfl⟩, ?_⟩
  unfold doi_to_article_cr
  cases ha : d.author with
  | none =>
    exact ⟨.keyError "author", by simp [getKey, ha, except_bind_error]⟩
  | some l =>
    cases hm : processAuthors nfkc l with
    | error e =>
      exact ⟨e, by simp [getKey, ha, except_bind_ok, hm, except_bind_error]⟩
    | ok as =>
      refine ⟨.keyError "published-online", ?_⟩
      simp [getKey, ha, except_bind_ok, hm, getYear, hp, ho, except_bind_error]

theorem resolve_sentinel_amended_witness :
    (doi_to_article_cr id "10.1021/jacs.0c01924" none =
        .ok { doi := some "10.1021/jacs.0c01924" } ∧
      ({ doi := some "10.1021/jacs.0c01924" } : Article).title = none) ∧
    ∃ e, doi_to_article_cr id "10.1021/jacs.0c01924" (some noDatesMsg) =
      .error e :=
  resolve_sentinel_amended id "10.1021/jacs.0c01924" noDatesMsg rfl rfl

/-- A registry message for a PNAS article whose `short-container-title` is the
empty list (the observed failure mode), exercising the long-name fallback and
the correction table. -/
def pnasMsg : CrMessage :=
  { author := some [{ family := some "Yong", given := some "Jonathan" }],
    publishedPrint := some [[2020]],
    containerTitle := some ["Proceedings of the National Academy of Sciences"],
    shortContainerTitle := some [],
    title0 := some ["An example title"],
    volume := some "117", issue := some "1", page := some "1-10" }

/-- The article the code actually produces for `pnasMsg`. -/
def pnasArticle : Article :=
  { title := some "An example title",
    authors := some [{ family := "Yong", given := "Jonathan" }],
    journal_long := some "Proceedings of the National Academy of Sciences",
    journal_short := some "Proc. Acad. Natl. Sci. U. S. A.",
    year := some 2020, volume := some (.int 117), issue := some (.int 1),
    pages := some "1-10", doi := some "10.1073/pnas.2010255117" }

/-- C6: the correction table applied after the empty-abbreviation fallback
maps "Proceedings of the National Academy of Sciences" to
"Proc. Acad. Natl. Sci. U. S. A." — the second and third words are transposed
relative to the CASSI form "Proc. Natl. Acad. Sci. U. S. A." that the table's
own comment promises (and that the later cygnet/_shared.py copy of the same
table carries). -/
theorem resolve_pnas_abbreviation_divergence :
    doi_to_article_cr id "10.1073/pnas.2010255117" (some pnasMsg) =
      .ok pnasArticle ∧
    pnasArticle.journal_short ≠ some "Proc. Natl. Acad. Sci. U. S. A." := by
  constructor
  · set_option maxRecDepth 16000 in rfl
  · decide

/-!
SECTION: Claim theorems: StreamingFetcher
-/

/-- C5: a URL fetch whose response content-type does not contain
"application/pdf", and on which the Elsevier `window.location` redirect
pattern fires on no body line, returns `_ret.FAILURE`; the destination file is
never opened (no bytes are written) and no `cp` runs. -/
theorem savePDF_non_pdf_failure (env : SaveEnv) (fuel : Nat)
    (path doi fmt : String) (resp : UrlResponse)
    (hslash : pyIn "/" path = true)
    (habs : pyStartsWith path "/" = false)
    (hnet : env.net (pyStrip path) = some resp)
    (hct : pyIn "application/pdf" resp.contentType = false)
    (hnored : resp.contentType = "text/html" →
      resp.textLines.findSome? env.redirectSearch = none) :
    (savePDF env (fuel + 1) path doi fmt).ret = .failure ∧
    (savePDF env (fuel + 1) path doi fmt).written = none ∧
    (savePDF env (fuel + 1) path doi fmt).cpCalled = false := by
  have hstream : ∀ m p, (streamStep resp m p).ret = .failure ∧
      (streamStep resp m p).written = none ∧ (streamStep resp m p).cpCalled = false := by
    intro m p
    simp [streamStep, hct]
  simp only [savePDF, hslash, habs, hnet, Bool.not_true, Bool.false_eq_true, if_false]
  by_cases h200 : resp.status = 200
  · simp only [h200, ne_eq, not_true_eq_false, if_false]
    by_cases hsd : pyIn "sciencedirect" (pyStrip path) && (resp.contentType == "text/html")
    · have hhtml : resp.contentType = "text/html" := by
        have := (Bool.and_eq_true _ _).mp hsd
        exact eq_of_beq this.2
      simp only [hsd, if_true, hnored hhtml]
      exact hstream _ _
    · simp only [hsd, Bool.false_eq_true, if_false]
      by_cases hw : pyIn "wiley" (pyStrip path) && (resp.contentType == "text/html")
      · simp [hw]
      · simp only [hw, Bool.false_eq_true, if_false]
        exact hstream _ _
  · simp [h200]

/-- An HTML error page served where a PDF was expected. -/
def htmlResp : UrlResponse :=
  { status := 200, contentType := "text/html",
    textLines := ["<html><body>Access denied</body></html>"] }

def env0 : SaveEnv :=
  { net := fun _ => some htmlResp, redirectSearch := fun _ => none,
    isFile := fun _ => false, destParentExists := false, cpOk := true }

theorem savePDF_non_pdf_failure_witness :
    (savePDF env0 1 "https://www.sciencedirect.com/science/article/pii/X/pdfft"
        "10.1016/j.jmr.2020.106969" "pdf").ret = .failure ∧
    (savePDF env0 1 "https://www.sciencedirect.com/science/article/pii/X/pdfft"
        "10.1016/j.jmr.2020.106969" "pdf").written = none ∧
    (savePDF env0 1 "https://www.sciencedirect.com/science/article/pii/X/pdfft"
        "10.1016/j.jmr.2020.106969" "pdf").cpCalled = false :=
  savePDF_non_pdf_failure env0 0
    "https://www.sciencedirect.com/science/article/pii/X/pdfft"
    "10.1016/j.jmr.2020.106969" "pdf" htmlResp rfl rfl rfl rfl (fun _ => rfl)

/-- C8: the escape-processing loop iterates over the keys of
`_g.pathEscapes` without `.items()`, so each two-character key is unpacked
into (backslash, literal): after the dedicated `"\ "` replacement, the first
iteration replaces every remaining backslash with a space. The escaped comma
`"\,"` therefore becomes `" ,"` — not the `","` the escape table intends. -/
theorem savePDF_path_escape_bug :
    processSourcePath "/tmp/file\\,name.pdf" = "/tmp/file ,name.pdf" ∧
    processSourcePath "/tmp/file\\,name.pdf" ≠ "/tmp/file,name.pdf" ∧
    processSourcePath "/tmp/my\\ file.pdf" = "/tmp/my file.pdf" := by
  refine ⟨by decide, by decide, by decide⟩

/-- C10: a source string with no '/' fails immediately: no destination
directory is created, no network request is issued, no file is written and no
copy runs. -/
theorem savePDF_no_slash_immediate (env : SaveEnv) (fuel : Nat)
    (path doi fmt : String) (h : pyIn "/" path = false) :
    savePDF env (fuel + 1) path doi fmt =
      { ret := .failure, mkdirCalled := false, netRequested := [],
        cpCalled := false, written := none } := by
  simp [savePDF, h]

theorem savePDF_no_slash_immediate_witness :
    savePDF env0 1 "droppedfile.pdf" "10.1021/jacs.0c01924" "pdf" =
      { ret := .failure, mkdirCalled := false, netRequested := [],
        cpCalled := false, written := none } :=
  savePDF_no_slash_immediate env0 0 "droppedfile.pdf" "10.1021/jacs.0c01924"
    "pdf" rfl

/-!
SECTION: Claim theorems: Reconciler
-/

/-- A failure-sentinel record (`title`/`authors` are `None`) with a timestamp. -/
def sentinelOld : Record := { doi := .vstr "10.1021/unknown", timeAdded := .vint 100 }

/-- The same sentinel record opened at a different time. -/
def sentinelNew : Record := { doi := .vstr "10.1021/unknown", timeAdded := .vint 200 }

/-- C7 counterexample: two records that agree on every field except
`timeAdded` are not `==`-equal, so `diffArticles` takes its else-branch; with
`authors` equal to `None` on both sides, stringifying the author value
iterates `None` and raises `TypeError` — an exception propagates instead of a
changed-count of 0. -/
theorem diffArticles_sentinel_time_raises :
    diffArticles sentinelOld.toDict sentinelNew.toDict =
      .error (.typeError "NoneType object is not iterable") := rfl

theorem dictEqB_toDict_self (x : Record) : dictEqB x.toDict x.toDict = true := by
  simp [dictEqB, Record.toDict, dictGet?, List.find?, List.all]

theorem dictKeys_dictSet (d : PyDict) (k : String) (v : Value) :
    dictKeys (dictSet d k v) = dictKeys d := by
  induction d with
  | nil => rfl
  | cons kv t ih =>
    simp only [dictSet, dictKeys, List.map_cons] at *
    rw [show (if kv.1 == k then (kv.1, v) else kv).1 = kv.1 from by
      split <;> rfl, ih]

/-- C7 (amended): `diffArticles` on a record and itself returns 0 changes; on
two records that agree on every field except possibly `timeAdded`/`timeOpened`
it returns 0 changes provided the (shared) `authors` value is an author list
whose entries stringify without error — for sentinel records whose `authors`
is `None`, a `TypeError` propagates instead (see the counterexample). -/
theorem diffArticles_time_fields_only (x y : Record)
    (hdoi : x.doi = y.doi) (htitle : x.title = y.title)
    (hauth : x.authors = y.authors) (hyear : x.year = y.year)
    (hjl : x.journalLong = y.journalLong) (hjs : x.journalShort = y.journalShort)
    (hvol : x.volume = y.volume) (hiss : x.issue = y.issue)
    (hpg : x.pages = y.pages) :
    diffArticles x.toDict x.toDict = .ok 0 ∧
    ((∃ la sa, x.authors = Value.vauthors la ∧ joinAuthors la = Except.ok sa) →
      diffArticles x.toDict y.toDict = .ok 0) := by
  constructor
  · simp [diffArticles, dictEqB_toDict_self]
  · rintro ⟨la, sa, hxa, hja⟩
    by_cases heq : dictEqB x.toDict y.toDict
    · simp [diffArticles, heq]
    · have hgx : dictGet? x.toDict "authors" = some (Value.vauthors la) := by
        rw [show dictGet? x.toDict "authors" = some x.authors from rfl, hxa]
      have hgy : dictGet? y.toDict "authors" = some (Value.vauthors la) := by
        rw [show dictGet? y.toDict "authors" = some y.authors from rfl, ← hauth, hxa]
      have hfx : fixAuthorsKey x.toDict =
          .ok (dictSet x.toDict "authors" (.vstr sa)) := by
        simp [fixAuthorsKey, hgx, hja, except_bind_ok]
      have hfy : fixAuthorsKey y.toDict =
          .ok (dictSet y.toDict "authors" (.vstr sa)) := by
        simp [fixAuthorsKey, hgy, hja, except_bind_ok]
      have hk1 : dictKeys (dictSet x.toDict "authors" (.vstr sa)) =
          ["doi", "title", "authors", "year", "journalLong", "journalShort",
           "volume", "issue", "pages", "timeAdded", "timeOpened"] := by
        rw [dictKeys_dictSet]; rfl
      have hk2 : dictKeys (dictSet y.toDict "authors" (.vstr sa)) =
          ["doi", "title", "authors", "year", "journalLong", "journalShort",
           "volume", "issue", "pages", "timeAdded", "timeOpened"] := by
        rw [dictKeys_dictSet]; rfl
      have hkeys : allKeysOf (dictSet x.toDict "authors" (.vstr sa))
          (dictSet y.toDict "authors" (.vstr sa)) =
          ["authors", "doi", "issue", "journalLong", "journalShort", "pages",
           "title", "volume", "year"] := by
        unfold allKeysOf
        rw [hk1, hk2]
        decide
      have ea : entryDiffers (dictSet x.toDict "authors" (.vstr sa))
          (dictSet y.toDict "authors" (.vstr sa)) "authors" = false := by
        simp [show entryDiffers (dictSet x.toDict "authors" (.vstr sa))
          (dictSet y.toDict "authors" (.vstr sa)) "authors" =
            (Value.vstr sa != Value.vstr sa) from rfl]
      have ed : entryDiffers (dictSet x.toDict "authors" (.vstr sa))
          (dictSet y.toDict "authors" (.vstr sa)) "doi" = false := by
        simp [show entryDiffers (dictSet x.toDict "authors" (.vstr sa))
          (dictSet y.toDict "authors" (.vstr sa)) "doi" =
            (x.doi != y.doi) from rfl, hdoi]
      have ei : entryDiffers (dictSet x.toDict "authors" (.vstr sa))
          (dictSet y.toDict "authors" (.vstr sa)) "issue" = false := by
        simp [show entryDiffers (dictSet x.toDict "authors" (.vstr sa))
          (dictSet y.toDict "authors" (.vstr sa)) "issue" =
            (x.issue != y.issue) from rfl, hiss]
      have ejl : entryDiffers (dictSet x.toDict "authors" (.vstr sa))
          (dictSet y.toDict "authors" (.vstr sa)) "journalLong" = false := by
        simp [show entryDiffers (dictSet x.toDict "authors" (.vstr sa))
          (dictSet y.toDict "authors" (.vstr sa)) "journalLong" =
            (x.journalLong != y.journalLong) from rfl, hjl]
      have ejs : entryDiffers (dictSet x.toDict "authors" (.vstr sa))
          (dictSet y.toDict "authors" (.vstr sa)) "journalShort" = false := by
        simp [show entryDiffers (dictSet x.toDict "authors" (.vstr sa))
          (dictSet y.toDict "authors" (.vstr sa)) "journalShort" =
            (x.journalShort != y.journalShort) from rfl, hjs]
      have ep : entryDiffers (dictSet x.toDict "authors" (.vstr sa))
          (dictSet y.toDict "authors" (.vstr sa)) "pages" = false := by
        simp [show entryDiffers (dictSet x.toDict "authors" (.vstr sa))
          (dictSet y.toDict "authors" (.vstr sa)) "pages" =
            (x.pages != y.pages) from rfl, hpg]
      have et : entryDiffers (dictSet x.toDict "authors" (.vstr sa))
          (dictSet y.toDict "authors" (.vstr sa)) "title" = false := by
        simp [show entryDiffers (dictSet x.toDict "authors" (.vstr sa))
          (dictSet y.toDict "authors" (.vstr sa)) "title" =
            (x.title != y.title) from rfl, htitle]
      have ev : entryDiffers (dictSet x.toDict "authors" (.vstr sa))
          (dictSet y.toDict "authors" (.vstr sa)) "volume" = false := by
        simp [show entryDiffers (dictSet x.toDict "authors" (.vstr sa))
          (dictSet y.toDict "authors" (.vstr sa)) "volume" =
            (x.volume != y.volume) from rfl, hvol]
      have ey : entryDiffers (dictSet x.toDict "authors" (.vstr sa))
          (dictSet y.toDict "authors" (.vstr sa)) "year" = false := by
        simp [show entryDiffers (dictSet x.toDict "authors" (.vstr sa))
          (dictSet y.toDict "authors" (.vstr sa)) "year" =
            (x.year != y.year) from rfl, hyear]
      simp only [diffArticles, heq, if_false, hfx, hfy, except_bind_ok, hkeys]
      simp [List.countP_cons, ea, ed, ei, ejl, ejs, ep, et, ev, ey]

/-- A fully populated record. -/
def recOld : Record :=
  { doi := .vstr "10.1021/jacs.0c01924", title := .vstr "An example title",
    authors := .vauthors [{ family := some "Yong", given := some "Jonathan" }],
    year := .vint 2020, journalLong := .vstr "Journal of the American Chemical Society",
    journalShort := .vstr "J. Am. Chem. Soc.", volume := .vint 142,
    issue := .vint 1, pages := .vstr "1-10",
    timeAdded := .vint 100, timeOpened := .vint 100 }

/-- The same record with both timestamps changed. -/
def recNew : Record :=
  { recOld with timeAdded := .vint 900, timeOpened := .vint 901 }

theorem diffArticles_time_fields_only_witness :
    diffArticles recOld.toDict recOld.toDict = .ok 0 ∧
    diffArticles recOld.toDict recNew.toDict = .ok 0 := by
  have h := diffArticles_time_fields_only recOld recNew rfl rfl rfl rfl rfl rfl
    rfl rfl rfl
  exact ⟨h.1, h.2 ⟨[{ family := some "Yong", given := some "Jonathan" }],
    "Jonathan Yong", rfl, rfl⟩⟩

end Cygnet
